import Mathlib

/-!
Shallow embedding of the `text2video-dfloat11` core (files
`src/text2video/engine.py` and `src/text2video/storage.py`, plus the
hardware-recommendation collaborator described by the spec), with theorems
settling the spec claims about the pipeline cache, the generation engine,
the generation recorder and the prompt sanitizer.

External collaborators (the diffusers/torch load steps, the diffusion
computation, the database backend, the Python `str.isalnum` classifier)
are modelled as parameters; fallible Python calls become `Except`-valued
functions; the module-level mutable state of `engine.py` (the global
`_cached_pipe`) becomes an explicit state record threaded through the
functions, extended with instrumentation counters (number of load-sequence
runs, device probes, `gc.collect` calls, accelerator cache flushes, error
log lines) that let the theorems speak about "invoked exactly once".
-/

namespace Text2Video

/-! ## Storage layer: `storage.py` -/

/-- `sanitize_prompt` from `storage.py`:
`safe = "".join(c for c in prompt[:max_len] if c.isalnum() or c in "-_")`,
`return safe or "image"`.  The Python built-in `str.isalnum` is passed in
as the character classifier `isalnum`; `max_len` (a count of characters,
default 30 in the source) is a natural number, matching Python slice
semantics `prompt[:max_len]` for non-negative lengths. -/
def sanitize_prompt (isalnum : Char → Bool) (prompt : String) (max_len : Nat) : String :=
  let safe := String.mk ((prompt.data.take max_len).filter
    (fun c => isalnum c || c == '-' || c == '_'))
  if safe = "" then "image" else safe

/-- An opaque error raised by the persistence backend. -/
structure DbErr where
  msg : String
deriving DecidableEq, Repr

/-- The record shape passed across the `db.add_generation` boundary, with
exactly the keyword arguments of the call in `record_generation`. -/
structure DbRecord where
  prompt : String
  steps : Nat
  width : Nat
  height : Nat
  filename : String
  generation_time : ℚ
  file_size_kb : ℚ
  model : String
  cfg_scale : ℚ
  seed : Option Int
  status : String
  precision : String
  loras : Option (List String)
deriving DecidableEq, Repr

/-- The record that `record_generation` constructs and hands to
`db.add_generation`: every field is forwarded from the arguments except
`status`, which is the hard-coded literal `"succeeded"` (the function has
no `status` parameter). -/
def buildRecord (prompt : String) (steps width height : Nat) (filename : String)
    (generation_time file_size_kb : ℚ) (model precision : String)
    (seed : Option Int) (cfg_scale : ℚ) (loras : Option (List String)) : DbRecord :=
  { prompt := prompt
    steps := steps
    width := width
    height := height
    filename := filename
    generation_time := generation_time
    file_size_kb := file_size_kb
    model := model
    cfg_scale := cfg_scale
    seed := seed
    status := "succeeded"
    precision := precision
    loras := loras }

/-- `record_generation` from `storage.py`.  The backend `add_generation`
(`db.add_generation`) either returns a new record id or raises; the
`try/except Exception` boundary converts any raise into a logged error and
a `None` return.  The result pairs the returned id (`none` on failure)
with the number of error-log lines written during the call. -/
def record_generation (add_generation : DbRecord → Except DbErr Nat)
    (prompt : String) (steps width height : Nat) (filename : String)
    (generation_time file_size_kb : ℚ) (model precision : String)
    (seed : Option Int) (cfg_scale : ℚ) (loras : Option (List String)) :
    Option Nat × Nat :=
  match add_generation (buildRecord prompt steps width height filename
      generation_time file_size_kb model precision seed cfg_scale loras) with
  | Except.ok id => (some id, 0)
  | Except.error _ => (none, 1)

/-- A backend that always raises, for exercising the failure path. -/
def failingBackend : DbRecord → Except DbErr Nat :=
  fun _ => Except.error ⟨"db down"⟩

/-! ## Engine layer: `engine.py` -/

/-- An exception value crossing a Python `try/except` boundary. -/
inductive PyErr where
  | exception (msg : String)
deriving DecidableEq, Repr

/-- An opaque loaded VAE (`AutoencoderKLWan.from_pretrained` result). -/
structure Vae where
  vid : Nat
deriving DecidableEq, Repr

/-- An opaque loaded pipeline object (`WanPipeline`).  Identity of the
Python object is modelled by the identifier. -/
structure Pipe where
  pid : Nat
deriving DecidableEq, Repr

/-- An opaque frame sequence (one element of the `.frames` attribute). -/
abbrev Video := Nat

/-- What the underlying diffusion computation returns: an object carrying
a list of frame sequences (`.frames`). -/
structure PipeOutput where
  frames : List Video
deriving DecidableEq, Repr

/-- The generation parameters `generate_video` passes to the pipeline
besides the prompt. -/
structure GenParams where
  negative_prompt : String
  height : Nat
  width : Nat
  num_frames : Nat
  guidance_scale : ℚ
  guidance_scale_2 : ℚ
  num_inference_steps : Nat
deriving DecidableEq, Repr

/-- The constant argument values of the `pipe(...)` call in
`generate_video` (`engine.py`, lines 124–132). -/
def fixedGenParams : GenParams :=
  { negative_prompt := "色调艳丽，过曝，静态，细节模糊不清，字幕，风格，作品，画作，画面，静止，整体发灰，最差质量，低质量，JPEG压缩残留，丑陋的，残缺的，多余的手指，画得不好的手部，画得不好的脸部，畸形的，毁容的，形态畸形的肢体，手指融合，静止不动的画面，杂乱的背景，三条腿，背景人很多，倒着走"
    height := 1280
    width := 720
    num_frames := 150
    guidance_scale := 4
    guidance_scale_2 := 3
    num_inference_steps := 30 }

/-- The external collaborators of the load sequence, indexed by the load
attempt number so that distinct attempts are distinct runs of the external
world (files may appear between attempts): the VAE load, the base pipeline
load, the two DFloat11 overlay applications, the cpu-offload enabling, and
the device probe `detect_device`.  Each fallible step may raise. -/
structure LoadEnv where
  loadVae : Nat → Except PyErr Vae
  loadPipe : Nat → Vae → Except PyErr Pipe
  loadDf11a : Nat → Pipe → Except PyErr Pipe
  loadDf11b : Nat → Pipe → Except PyErr Pipe
  offload : Nat → Pipe → Except PyErr Pipe

/-- Accelerator backends available on the host
(`torch.backends.mps.is_available()`, `torch.cuda.is_available()`). -/
structure Host where
  mpsAvailable : Bool
  cudaAvailable : Bool
deriving DecidableEq, Repr

/-- The process-wide mutable state of `engine.py` (the module global
`_cached_pipe`) together with instrumentation counters: how many times the
load sequence was started, how many times `detect_device` was probed, how
many `gc.collect` passes, mps/cuda cache flushes, and error-log lines
happened, and the list of `(prompt, params)` arguments of every `pipe(...)`
invocation. -/
structure EngState where
  cachedPipe : Option Pipe
  loadCount : Nat
  probeCount : Nat
  gcCount : Nat
  mpsFlushCount : Nat
  cudaFlushCount : Nat
  errLogCount : Nat
  pipeCalls : List (String × GenParams)
deriving DecidableEq, Repr

/-- The fresh state at process start: empty cache slot, no events yet. -/
def initState : EngState :=
  { cachedPipe := none, loadCount := 0, probeCount := 0, gcCount := 0,
    mpsFlushCount := 0, cudaFlushCount := 0, errLogCount := 0, pipeCalls := [] }

/-- The full load sequence of `load_pipeline` (attempt number `k`): load
the VAE, load the base `WanPipeline` from it, apply the two DFloat11
overlays to `transformer` and `transformer_2`, then enable model cpu
offload.  The first raising step aborts the sequence and propagates. -/
def runLoadSeq (env : LoadEnv) (k : Nat) : Except PyErr Pipe := do
  let vae ← env.loadVae k
  let p0 ← env.loadPipe k vae
  let p1 ← env.loadDf11a k p0
  let p2 ← env.loadDf11b k p1
  env.offload k p2

/-- Device probes performed by one empty-cache `load_pipeline` call:
`detect_device()` runs exactly when no device hint is given. -/
def probeInc : Option String → Nat
  | some _ => 0
  | none => 1

/-- `load_pipeline` from `engine.py`.  If `_cached_pipe` is set, return it
unchanged (no probe, no load).  Otherwise resolve the device via
`detect_device()` when no hint is given (the probe counter increments; the
source only logs the resolved device), run the full load sequence, and only
on success store the pipeline in the cache slot — the assignment
`_cached_pipe = pipe` is the last statement, so a raising step leaves the
slot untouched and the exception propagates. -/
def load_pipeline (env : LoadEnv) (device : Option String) (s : EngState) :
    Except PyErr Pipe × EngState :=
  match s.cachedPipe with
  | some p => (Except.ok p, s)
  | none =>
    let probed := s.probeCount + probeInc device
    match runLoadSeq env s.loadCount with
    | Except.ok pipe =>
      (Except.ok pipe,
        { s with probeCount := probed, loadCount := s.loadCount + 1,
                 cachedPipe := some pipe })
    | Except.error e =>
      (Except.error e, { s with probeCount := probed, loadCount := s.loadCount + 1 })

/-- `n + 1` successive calls to `load_pipeline` from state `s`:
`acquireSeq env device s n` is the result and post-state of call `n + 1`. -/
def acquireSeq (env : LoadEnv) (device : Option String) (s : EngState) :
    Nat → Except PyErr Pipe × EngState
  | 0 => load_pipeline env device s
  | n + 1 => load_pipeline env device (acquireSeq env device s n).2

/-- What a call to `generate_video` does from the caller's point of view:
either return a frame sequence, or let an exception escape. -/
inductive GenResult where
  | frames (v : Video)
  | raised (e : PyErr)
deriving DecidableEq, Repr

/-- `generate_video` from `engine.py`, literally following the Python
control flow.  The `try` block acquires the pipeline via `load_pipeline()`
(no device hint) and runs the computation with the fixed parameters,
binding the local `video` on success (`.frames[0]` raises `IndexError`
when `frames` is empty).  `except Exception` logs one error line.
`finally` always runs one `gc.collect` pass and flushes the mps/cuda
caches when those backends are available.  The trailing `return video`
then raises `UnboundLocalError` whenever the `try` block raised before
`video` was assigned, because no exception path assigns `video`. -/
def generate_video (env : LoadEnv)
    (pipeCompute : Pipe → String → GenParams → Except PyErr PipeOutput)
    (host : Host) (prompt : String) (s : EngState) : GenResult × EngState :=
  let tryStep : Except PyErr Video × EngState :=
    match load_pipeline env none s with
    | (Except.error e, s1) => (Except.error e, s1)
    | (Except.ok pipe, s1) =>
      let s2 := { s1 with pipeCalls := s1.pipeCalls ++ [(prompt, fixedGenParams)] }
      match pipeCompute pipe prompt fixedGenParams with
      | Except.error e => (Except.error e, s2)
      | Except.ok out =>
        match out.frames with
        | [] => (Except.error (PyErr.exception "IndexError"), s2)
        | v :: _ => (Except.ok v, s2)
  let afterExcept : Except PyErr Video × EngState :=
    match tryStep with
    | (Except.ok v, s2) => (Except.ok v, s2)
    | (Except.error e, s2) =>
      (Except.error e, { s2 with errLogCount := s2.errLogCount + 1 })
  let s3 : EngState :=
    { afterExcept.2 with
      gcCount := afterExcept.2.gcCount + 1,
      mpsFlushCount := afterExcept.2.mpsFlushCount +
        (if host.mpsAvailable then 1 else 0),
      cudaFlushCount := afterExcept.2.cudaFlushCount +
        (if host.cudaAvailable then 1 else 0) }
  match afterExcept.1 with
  | Except.ok v => (GenResult.frames v, s3)
  | Except.error _ => (GenResult.raised (PyErr.exception "UnboundLocalError"), s3)

/-- A load environment whose every step succeeds. -/
def okEnv : LoadEnv :=
  { loadVae := fun _ => Except.ok ⟨0⟩
    loadPipe := fun _ _ => Except.ok ⟨0⟩
    loadDf11a := fun _ p => Except.ok p
    loadDf11b := fun _ p => Except.ok p
    offload := fun _ p => Except.ok p }

/-- A load environment whose first step (the VAE load) always raises, as
with missing local model files. -/
def failEnv : LoadEnv :=
  { okEnv with loadVae := fun _ => Except.error (PyErr.exception "missing model files") }

/-- A diffusion computation that always raises, as when the underlying
pipeline call fails (e.g. an accelerator out-of-memory error). -/
def failingCompute : Pipe → String → GenParams → Except PyErr PipeOutput :=
  fun _ _ _ => Except.error (PyErr.exception "CUDA out of memory")

/-- A diffusion computation that succeeds with one frame sequence. -/
def okCompute : Pipe → String → GenParams → Except PyErr PipeOutput :=
  fun _ _ _ => Except.ok ⟨[7]⟩

/-- A host with neither mps nor cuda available. -/
def host0 : Host := ⟨false, false⟩

/-! ## Hardware recommendation collaborator

The hardware module (`recommend_models`, `get_available_models`) is part of
this repository but its file is not under `src/`; only its callers
(`cli.py`, `engine.py` imports) and the spec describe it, so it is
modelled from the spec (§4.1). -/

/-- Modelled from the spec: a Model Catalog entry (the hardware module's
catalog is missing from `src/`) — a stable abstract key, the concrete
upstream model identifier, a capability rank used to pick "the single best
descriptor", and its resource requirement in GB. -/
structure CatalogEntry where
  id : String
  upstream_id : String
  capability : Nat
  required_gb : ℚ
deriving DecidableEq, Repr

/-- Modelled from the spec: the part of a DeviceProfile that
`recommend_models` consumes — the available memory budget. -/
structure DeviceProfile where
  available_gb : ℚ
deriving DecidableEq, Repr

/-- Modelled from the spec: a ModelDescriptor `{ id, upstream_id,
recommended }` as returned by `recommend_models`. -/
structure ModelDescriptor where
  id : String
  upstream_id : String
  recommended : Bool
deriving DecidableEq, Repr

/-- An entry fits the profile when its resource requirement does not
exceed the profile's available memory. -/
def entryFits (p : DeviceProfile) (e : CatalogEntry) : Bool :=
  decide (e.required_gb ≤ p.available_gb)

/-- The descriptor of an entry not marked recommended. -/
def unrec (e : CatalogEntry) : ModelDescriptor :=
  ⟨e.id, e.upstream_id, false⟩

/-- The descriptor of the entry marked recommended. -/
def recOf (e : CatalogEntry) : ModelDescriptor :=
  ⟨e.id, e.upstream_id, true⟩

/-- The highest capability occurring in a list of entries (0 for none). -/
def maxCap : List CatalogEntry → Nat
  | [] => 0
  | e :: es => Nat.max e.capability (maxCap es)

/-- Mark the first entry of capability `m` as recommended, every other
entry as not recommended. -/
def markFirst (m : Nat) : List CatalogEntry → List ModelDescriptor
  | [] => []
  | e :: es =>
    if e.capability = m then recOf e :: es.map unrec
    else unrec e :: markFirst m es

/-- Modelled from the spec (the hardware module carrying this function is
missing from `src/`): `recommend_models` is a pure function over the Model
Catalog and the profile — it filters out descriptors whose resource
requirement exceeds the profile's available memory and marks as
`recommended` the single best (highest-capability) fitting descriptor,
ties broken by catalog declaration order; when no descriptor fits it
returns the empty sequence rather than an error. -/
def recommend_models (catalog : List CatalogEntry) (p : DeviceProfile) :
    List ModelDescriptor :=
  match catalog.filter (entryFits p) with
  | [] => []
  | e :: es => markFirst (maxCap (e :: es)) (e :: es)

/-- Modelled from the spec: the concrete two-entry catalog of the spec's
scenario — one entry requiring 4 GB, one requiring 16 GB. -/
def catalog0 : List CatalogEntry :=
  [⟨"wan-small", "Wan-AI/small", 1, 4⟩, ⟨"wan-large", "Wan-AI/large", 2, 16⟩]

/-- Modelled from the spec: the scenario profile with 8 GB available. -/
def profile0 : DeviceProfile := ⟨8⟩

/-! ## Engine lemmas -/

theorem load_pipeline_cache_hit (env : LoadEnv) (device : Option String)
    (s : EngState) (p : Pipe) (h : s.cachedPipe = some p) :
    load_pipeline env device s = (Except.ok p, s) := by
  simp [load_pipeline, h]

theorem load_pipeline_empty_fst (env : LoadEnv) (device : Option String)
    (s : EngState) (h0 : s.cachedPipe = none) :
    (load_pipeline env device s).1 = runLoadSeq env s.loadCount := by
  cases hr : runLoadSeq env s.loadCount <;> simp [load_pipeline, h0, hr]

theorem load_pipeline_empty_loadCount (env : LoadEnv) (device : Option String)
    (s : EngState) (h0 : s.cachedPipe = none) :
    (load_pipeline env device s).2.loadCount = s.loadCount + 1 := by
  cases hr : runLoadSeq env s.loadCount <;> simp [load_pipeline, h0, hr]

theorem load_pipeline_first_success (env : LoadEnv) (device : Option String)
    (s : EngState) (p : Pipe) (h0 : s.cachedPipe = none)
    (h : (load_pipeline env device s).1 = Except.ok p) :
    (load_pipeline env device s).2 =
      { s with
        probeCount := s.probeCount + probeInc device,
        loadCount := s.loadCount + 1,
        cachedPipe := some p } := by
  cases hr : runLoadSeq env s.loadCount with
  | ok q =>
    simp [load_pipeline, h0, hr] at h
    simp [load_pipeline, h0, hr, h]
  | error e => simp [load_pipeline, h0, hr] at h

/-- `load_pipeline` touches only the cache slot and the load/probe
counters: the gc, flush, error-log and pipeline-call instrumentation is
untouched by pipeline acquisition. -/
theorem load_pipeline_preserves (env : LoadEnv) (device : Option String)
    (s : EngState) :
    (load_pipeline env device s).2.gcCount = s.gcCount ∧
    (load_pipeline env device s).2.mpsFlushCount = s.mpsFlushCount ∧
    (load_pipeline env device s).2.cudaFlushCount = s.cudaFlushCount ∧
    (load_pipeline env device s).2.errLogCount = s.errLogCount ∧
    (load_pipeline env device s).2.pipeCalls = s.pipeCalls := by
  cases h0 : s.cachedPipe with
  | some p => simp [load_pipeline, h0]
  | none => cases hr : runLoadSeq env s.loadCount <;> simp [load_pipeline, h0, hr]

/-! ## Engine theorems -/

/-- C1: Single-load invariant.  From an empty cache, once the first call
to `load_pipeline` succeeds with pipeline `p`, every one of the following
calls (call `n + 1` is `acquireSeq env device s n`) returns the identical
pipeline `p` with the state exactly as the first call left it: the load
sequence has run exactly once over all calls (`loadCount = s.loadCount + 1`
forever) and the device was probed only on the first call (once when no
hint is given, never when a hint is given). -/
theorem single_load_invariant (env : LoadEnv) (device : Option String)
    (s : EngState) (p : Pipe) (h0 : s.cachedPipe = none)
    (h : (load_pipeline env device s).1 = Except.ok p) :
    ∀ n : Nat,
      acquireSeq env device s n = (Except.ok p, (load_pipeline env device s).2) ∧
      (acquireSeq env device s n).2.loadCount = s.loadCount + 1 ∧
      (acquireSeq env device s n).2.probeCount = s.probeCount + probeInc device := by
  have hS1 := load_pipeline_first_success env device s p h0 h
  have hcache : (load_pipeline env device s).2.cachedPipe = some p := by
    rw [hS1]
  intro n
  induction n with
  | zero =>
    refine ⟨?_, ?_, ?_⟩
    · calc acquireSeq env device s 0 = load_pipeline env device s := rfl
        _ = ((load_pipeline env device s).1, (load_pipeline env device s).2) := rfl
        _ = (Except.ok p, (load_pipeline env device s).2) := by rw [h]
    · show (load_pipeline env device s).2.loadCount = s.loadCount + 1
      rw [hS1]
    · show (load_pipeline env device s).2.probeCount = s.probeCount + probeInc device
      rw [hS1]
  | succ n ih =>
    have hsnd : (acquireSeq env device s n).2 = (load_pipeline env device s).2 := by
      rw [ih.1]
    refine ⟨?_, ?_, ?_⟩
    · show load_pipeline env device (acquireSeq env device s n).2 =
        (Except.ok p, (load_pipeline env device s).2)
      rw [hsnd, load_pipeline_cache_hit env device _ p hcache]
    · show (load_pipeline env device (acquireSeq env device s n).2).2.loadCount =
        s.loadCount + 1
      rw [hsnd, load_pipeline_cache_hit env device _ p hcache]
      rw [hS1]
    · show (load_pipeline env device (acquireSeq env device s n).2).2.probeCount =
        s.probeCount + probeInc device
      rw [hsnd, load_pipeline_cache_hit env device _ p hcache]
      rw [hS1]

/-- Witness for C1 at a concrete successful environment: the third call
still returns the pipeline of the first call, with one load and one probe
in total. -/
theorem single_load_invariant_witness :
    initState.cachedPipe = none ∧
    (load_pipeline okEnv none initState).1 = Except.ok ⟨0⟩ ∧
    (acquireSeq okEnv none initState 2 =
        (Except.ok ⟨0⟩, (load_pipeline okEnv none initState).2) ∧
      (acquireSeq okEnv none initState 2).2.loadCount = initState.loadCount + 1 ∧
      (acquireSeq okEnv none initState 2).2.probeCount =
        initState.probeCount + probeInc none) :=
  ⟨rfl, rfl, single_load_invariant okEnv none initState ⟨0⟩ rfl rfl 2⟩

/-- C3: Load failure atomicity and retry.  From an empty cache, if the
load sequence raises `e`, `load_pipeline` propagates exactly `e` to the
caller, the cache slot stays empty (no partial pipeline is stored), and a
subsequent call re-executes the full load sequence from scratch: its
result is the fresh outcome of attempt `loadCount + 1` (not a cached value
or cached failure) and the load counter increments again. -/
theorem load_failure_atomic_retry (env : LoadEnv) (device : Option String)
    (s : EngState) (e : PyErr) (h0 : s.cachedPipe = none)
    (h : runLoadSeq env s.loadCount = Except.error e) :
    (load_pipeline env device s).1 = Except.error e ∧
    (load_pipeline env device s).2.cachedPipe = none ∧
    (load_pipeline env device s).2.loadCount = s.loadCount + 1 ∧
    (load_pipeline env device (load_pipeline env device s).2).1 =
      runLoadSeq env (s.loadCount + 1) ∧
    (load_pipeline env device (load_pipeline env device s).2).2.loadCount =
      s.loadCount + 2 := by
  have hfail : load_pipeline env device s =
      (Except.error e,
        { s with
          probeCount := s.probeCount + probeInc device,
          loadCount := s.loadCount + 1 }) := by
    simp [load_pipeline, h0, h]
  have hempty : (load_pipeline env device s).2.cachedPipe = none := by
    rw [hfail]; exact h0
  refine ⟨by rw [hfail], hempty, by rw [hfail], ?_, ?_⟩
  · rw [load_pipeline_empty_fst env device _ hempty]
    rw [hfail]
  · rw [load_pipeline_empty_loadCount env device _ hempty]
    rw [hfail]

/-- Witness for C3: against the failing environment from the fresh state,
the error propagates, the cache stays empty, and the second call runs the
load sequence again. -/
theorem load_failure_atomic_retry_witness :
    initState.cachedPipe = none ∧
    runLoadSeq failEnv initState.loadCount =
      Except.error (PyErr.exception "missing model files") ∧
    ((load_pipeline failEnv none initState).1 =
        Except.error (PyErr.exception "missing model files") ∧
      (load_pipeline failEnv none initState).2.cachedPipe = none ∧
      (load_pipeline failEnv none initState).2.loadCount = initState.loadCount + 1 ∧
      (load_pipeline failEnv none (load_pipeline failEnv none initState).2).1 =
        runLoadSeq failEnv (initState.loadCount + 1) ∧
      (load_pipeline failEnv none (load_pipeline failEnv none initState).2).2.loadCount =
        initState.loadCount + 2) :=
  ⟨rfl, rfl,
    load_failure_atomic_retry failEnv none initState
      (PyErr.exception "missing model files") rfl rfl⟩

/-- C2 is refuted by the code: when the underlying computation raises
inside `generate_video`, the error is logged (and cleanup runs), but the
local `video` is never assigned on that path, so the trailing
`return video` raises `UnboundLocalError` to the caller instead of
returning "no result".  This theorem evaluates the embedded code at the
failing input `generate_video("a cat")` with the computation forced to
raise: the call lets an exception escape and returns no frame value. -/
theorem generation_failure_raises_not_none :
    (generate_video okEnv failingCompute host0 "a cat" initState).1 =
      GenResult.raised (PyErr.exception "UnboundLocalError") ∧
    (generate_video okEnv failingCompute host0 "a cat" initState).2.errLogCount = 1 ∧
    (generate_video okEnv failingCompute host0 "a cat" initState).2.gcCount = 1 ∧
    ∀ v : Video,
      (generate_video okEnv failingCompute host0 "a cat" initState).1 ≠
        GenResult.frames v := by
  have h1 : (generate_video okEnv failingCompute host0 "a cat" initState).1 =
      GenResult.raised (PyErr.exception "UnboundLocalError") := rfl
  refine ⟨h1, rfl, rfl, fun v hv => ?_⟩
  rw [h1] at hv
  exact GenResult.noConfusion hv

/-- C4: Guaranteed cleanup.  On every exit path of `generate_video` —
normal return, load failure, computation failure, empty frames — exactly
one `gc.collect` pass runs, and the mps/cuda cache flush runs exactly once
when the corresponding backend is available and never otherwise. -/
theorem cleanup_exactly_once (env : LoadEnv)
    (pipeCompute : Pipe → String → GenParams → Except PyErr PipeOutput)
    (host : Host) (prompt : String) (s : EngState) :
    (generate_video env pipeCompute host prompt s).2.gcCount = s.gcCount + 1 ∧
    (generate_video env pipeCompute host prompt s).2.mpsFlushCount =
      s.mpsFlushCount + (if host.mpsAvailable then 1 else 0) ∧
    (generate_video env pipeCompute host prompt s).2.cudaFlushCount =
      s.cudaFlushCount + (if host.cudaAvailable then 1 else 0) := by
  have hp := load_pipeline_preserves env none s
  rcases hlp : load_pipeline env none s with ⟨r, s1⟩
  rw [hlp] at hp
  cases r with
  | error e =>
    simp [generate_video, hlp]
    exact ⟨hp.1, hp.2.1, hp.2.2.1⟩
  | ok pipe =>
    cases hpc : pipeCompute pipe prompt fixedGenParams with
    | error e =>
      simp [generate_video, hlp, hpc]
      exact ⟨hp.1, hp.2.1, hp.2.2.1⟩
    | ok out =>
      cases hfr : out.frames with
      | nil =>
        simp [generate_video, hlp, hpc, hfr]
        exact ⟨hp.1, hp.2.1, hp.2.2.1⟩
      | cons v vs =>
        simp [generate_video, hlp, hpc, hfr]
        exact ⟨hp.1, hp.2.1, hp.2.2.1⟩

/-- C5: Cleanup frame condition.  The per-call cleanup of `generate_video`
never evicts or mutates the cached pipeline: after the call, the cache
slot holds exactly the value it held after pipeline acquisition within the
call. -/
theorem cleanup_frame_condition (env : LoadEnv)
    (pipeCompute : Pipe → String → GenParams → Except PyErr PipeOutput)
    (host : Host) (prompt : String) (s : EngState) :
    (generate_video env pipeCompute host prompt s).2.cachedPipe =
      (load_pipeline env none s).2.cachedPipe := by
  rcases hlp : load_pipeline env none s with ⟨r, s1⟩
  cases r with
  | error e => simp [generate_video, hlp]
  | ok pipe =>
    cases hpc : pipeCompute pipe prompt fixedGenParams with
    | error e => simp [generate_video, hlp, hpc]
    | ok out =>
      cases hfr : out.frames with
      | nil => simp [generate_video, hlp, hpc, hfr]
      | cons v vs => simp [generate_video, hlp, hpc, hfr]

/-- C8: Fixed generation parameters.  Every pipeline invocation recorded
by a `generate_video` call that was not already present before the call
passes exactly the constant `fixedGenParams` (fixed negative prompt,
1280×720, 150 frames, guidance scales 4 and 3, 30 steps): the parameters
depend neither on the prompt nor on any caller-supplied configuration. -/
theorem fixed_generation_parameters (env : LoadEnv)
    (pipeCompute : Pipe → String → GenParams → Except PyErr PipeOutput)
    (host : Host) (prompt : String) (s : EngState)
    (call : String × GenParams)
    (hmem : call ∈ (generate_video env pipeCompute host prompt s).2.pipeCalls) :
    call ∈ s.pipeCalls ∨ call.2 = fixedGenParams := by
  have hp := load_pipeline_preserves env none s
  rcases hlp : load_pipeline env none s with ⟨r, s1⟩
  rw [hlp] at hp
  have hcalls : s1.pipeCalls = s.pipeCalls := hp.2.2.2.2
  cases r with
  | error e =>
    simp [generate_video, hlp, hcalls] at hmem
    exact Or.inl hmem
  | ok pipe =>
    cases hpc : pipeCompute pipe prompt fixedGenParams with
    | error e =>
      simp [generate_video, hlp, hpc, hcalls] at hmem
      rcases hmem with hmem | hmem
      · exact Or.inl hmem
      · exact Or.inr (by rw [hmem])
    | ok out =>
      cases hfr : out.frames with
      | nil =>
        simp [generate_video, hlp, hpc, hfr, hcalls] at hmem
        rcases hmem with hmem | hmem
        · exact Or.inl hmem
        · exact Or.inr (by rw [hmem])
      | cons v vs =>
        simp [generate_video, hlp, hpc, hfr, hcalls] at hmem
        rcases hmem with hmem | hmem
        · exact Or.inl hmem
        · exact Or.inr (by rw [hmem])

/-- Witness for C8: in a concrete successful run from the fresh state, the
one recorded pipeline invocation carries `fixedGenParams`. -/
theorem fixed_generation_parameters_witness :
    ("a cat", fixedGenParams) ∈
      (generate_video okEnv okCompute host0 "a cat" initState).2.pipeCalls ∧
    (("a cat", fixedGenParams) ∈ initState.pipeCalls ∨
      (("a cat", fixedGenParams) : String × GenParams).2 = fixedGenParams) := by
  have hmem : ("a cat", fixedGenParams) ∈
      (generate_video okEnv okCompute host0 "a cat" initState).2.pipeCalls := by
    have hcalls : (generate_video okEnv okCompute host0 "a cat" initState).2.pipeCalls =
        [("a cat", fixedGenParams)] := rfl
    rw [hcalls]
    exact List.mem_singleton.mpr rfl
  exact ⟨hmem,
    fixed_generation_parameters okEnv okCompute host0 "a cat" initState
      ("a cat", fixedGenParams) hmem⟩

/-! ## Recommendation lemmas -/

theorem le_maxCap {l : List CatalogEntry} {e : CatalogEntry} (h : e ∈ l) :
    e.capability ≤ maxCap l := by
  induction l with
  | nil => cases h
  | cons a as ih =>
    rcases List.mem_cons.mp h with rfl | h
    · exact Nat.le_max_left _ _
    · exact le_trans (ih h) (Nat.le_max_right _ _)

theorem maxCap_attained (e : CatalogEntry) (l : List CatalogEntry) :
    ∃ f ∈ e :: l, f.capability = maxCap (e :: l) := by
  induction l generalizing e with
  | nil => exact ⟨e, List.mem_cons_self e [], by simp [maxCap]⟩
  | cons g t ih =>
    obtain ⟨f, hf, hcap⟩ := ih g
    by_cases hle : maxCap (g :: t) ≤ e.capability
    · refine ⟨e, List.mem_cons_self e (g :: t), ?_⟩
      show e.capability = max e.capability (maxCap (g :: t))
      exact (Nat.max_eq_left hle).symm
    · refine ⟨f, List.mem_cons_of_mem e hf, ?_⟩
      rw [hcap]
      show maxCap (g :: t) = max e.capability (maxCap (g :: t))
      exact (Nat.max_eq_right (le_of_not_le hle)).symm

theorem markFirst_split {l : List CatalogEntry} {m : Nat}
    (h : ∃ e ∈ l, e.capability = m) :
    ∃ pre e post,
      l = pre ++ e :: post ∧ e.capability = m ∧ (∀ x ∈ pre, x.capability ≠ m) ∧
      markFirst m l = pre.map unrec ++ recOf e :: post.map unrec := by
  induction l with
  | nil =>
    obtain ⟨e, he, _⟩ := h
    cases he
  | cons a as ih =>
    by_cases ha : a.capability = m
    · exact ⟨[], a, as, by simp, ha, by simp, by simp [markFirst, ha]⟩
    · have h' : ∃ e ∈ as, e.capability = m := by
        obtain ⟨e, he, hm⟩ := h
        rcases List.mem_cons.mp he with rfl | he
        · exact absurd hm ha
        · exact ⟨e, he, hm⟩
      obtain ⟨pre, e, post, hl, hm, hpre, hmark⟩ := ih h'
      refine ⟨a :: pre, e, post, by rw [List.cons_append, hl], hm, ?_, ?_⟩
      · intro x hx
        rcases List.mem_cons.mp hx with rfl | hx
        · exact ha
        · exact hpre x hx
      · simp [markFirst, ha, hmark]

theorem countP_map_unrec (l : List CatalogEntry) :
    (l.map unrec).countP (fun d => d.recommended) = 0 := by
  induction l with
  | nil => rfl
  | cons a as ih => simp [unrec, List.countP_cons, ih]

/-! ## Recommendation theorem -/

/-- C7: `recommend_models` is a pure function of the catalog and the
profile.  When no catalog entry fits the memory budget it returns the
empty sequence (no entry marked recommended, no error).  When at least one
entry fits, exactly one returned descriptor is marked recommended, and it
is the highest-capability fitting entry, ties broken by catalog
declaration order: the fitting entries split as `pre ++ e :: post` where
`e` is recommended, every fitting entry's capability is at most `e`'s, and
every earlier fitting entry's capability is strictly below `e`'s. -/
theorem recommend_models_spec (catalog : List CatalogEntry) (p : DeviceProfile) :
    (catalog.filter (entryFits p) = [] → recommend_models catalog p = []) ∧
    (catalog.filter (entryFits p) ≠ [] →
      (recommend_models catalog p).countP (fun d => d.recommended) = 1 ∧
      ∃ pre e post,
        catalog.filter (entryFits p) = pre ++ e :: post ∧
        recommend_models catalog p = pre.map unrec ++ recOf e :: post.map unrec ∧
        entryFits p e = true ∧
        (∀ x ∈ catalog.filter (entryFits p), x.capability ≤ e.capability) ∧
        (∀ x ∈ pre, x.capability < e.capability)) := by
  constructor
  · intro h
    simp [recommend_models, h]
  · intro h
    rcases hf : catalog.filter (entryFits p) with _ | ⟨a, as⟩
    · exact absurd hf h
    · have hrm : recommend_models catalog p = markFirst (maxCap (a :: as)) (a :: as) := by
        simp [recommend_models, hf]
      obtain ⟨f, hfmem, hfcap⟩ := maxCap_attained a as
      obtain ⟨pre, e, post, hl, hm, hpre, hmark⟩ :=
        markFirst_split (l := a :: as) (m := maxCap (a :: as)) ⟨f, hfmem, hfcap⟩
      constructor
      · rw [hrm, hmark, List.countP_append, List.countP_cons,
          countP_map_unrec, countP_map_unrec]
        simp [recOf]
      · refine ⟨pre, e, post, hl, hrm.trans hmark, ?_, ?_, ?_⟩
        · have he : e ∈ catalog.filter (entryFits p) := by
            rw [hf, hl]
            exact List.mem_append_right _ (List.mem_cons_self e post)
          exact (List.mem_filter.mp he).2
        · intro x hx
          rw [hm]
          exact le_maxCap hx
        · intro x hx
          have hxm : x ∈ a :: as := by
            rw [hl]
            exact List.mem_append_left _ hx
          rw [hm]
          exact lt_of_le_of_ne (le_maxCap hxm) (hpre x hx)

/-- Witness for C7 at the spec's scenario (8 GB budget, 4 GB and 16 GB
entries): some entry fits and exactly one descriptor is recommended. -/
theorem recommend_models_spec_witness :
    catalog0.filter (entryFits profile0) ≠ [] ∧
    ((recommend_models catalog0 profile0).countP (fun d => d.recommended) = 1 ∧
      ∃ pre e post,
        catalog0.filter (entryFits profile0) = pre ++ e :: post ∧
        recommend_models catalog0 profile0 = pre.map unrec ++ recOf e :: post.map unrec ∧
        entryFits profile0 e = true ∧
        (∀ x ∈ catalog0.filter (entryFits profile0), x.capability ≤ e.capability) ∧
        (∀ x ∈ pre, x.capability < e.capability)) :=
  ⟨by decide, (recommend_models_spec catalog0 profile0).2 (by decide)⟩

/-! ## Storage theorems -/

/-- C6: Recorder best-effort contract.  For every combination of arguments,
if the persistence backend (`db.add_generation`) raises, `record_generation`
logs the error (exactly one error-log line) and returns an absent id
(`none`) without raising; if the backend succeeds, it returns the backend's
new record id (and logs nothing). -/
theorem record_generation_best_effort (add_generation : DbRecord → Except DbErr Nat)
    (prompt : String) (steps width height : Nat) (filename : String)
    (generation_time file_size_kb : ℚ) (model precision : String)
    (seed : Option Int) (cfg_scale : ℚ) (loras : Option (List String)) :
    (∀ e : DbErr,
      add_generation (buildRecord prompt steps width height filename
          generation_time file_size_kb model precision seed cfg_scale loras) =
        Except.error e →
      record_generation add_generation prompt steps width height filename
          generation_time file_size_kb model precision seed cfg_scale loras =
        (none, 1)) ∧
    (∀ id : Nat,
      add_generation (buildRecord prompt steps width height filename
          generation_time file_size_kb model precision seed cfg_scale loras) =
        Except.ok id →
      record_generation add_generation prompt steps width height filename
          generation_time file_size_kb model precision seed cfg_scale loras =
        (some id, 0)) := by
  constructor
  · intro e he
    simp [record_generation, he]
  · intro id hid
    simp [record_generation, hid]

/-- Witness for C6: a concrete call with a backend forced to fail returns
`(none, 1)` — absent id, one error logged, no raise. -/
theorem record_generation_best_effort_witness :
    failingBackend (buildRecord "a cat" 30 720 1280 "out.mp4" 1 1 "wan" "df11"
        none 0 none) = Except.error ⟨"db down"⟩ ∧
    record_generation failingBackend "a cat" 30 720 1280 "out.mp4" 1 1 "wan" "df11"
        none 0 none = (none, 1) :=
  ⟨rfl,
    (record_generation_best_effort failingBackend "a cat" 30 720 1280 "out.mp4"
        1 1 "wan" "df11" none 0 none).1 ⟨"db down"⟩ rfl⟩

/-- C9 (implicit): `record_generation` exposes no status parameter (its
argument list in the embedding is exactly the source parameter list, with
no `status`), and the record it persists carries `status = "succeeded"`
for all argument values — even metadata of a failed attempt recorded
through this interface would be stored as `"succeeded"`. -/
theorem record_status_always_succeeded (prompt : String) (steps width height : Nat)
    (filename : String) (generation_time file_size_kb : ℚ) (model precision : String)
    (seed : Option Int) (cfg_scale : ℚ) (loras : Option (List String)) :
    (buildRecord prompt steps width height filename generation_time file_size_kb
        model precision seed cfg_scale loras).status = "succeeded" := rfl

/-- C10 (implicit): for every classifier, prompt and `max_len`,
`sanitize_prompt` returns a non-empty string; the result is either the
subsequence of the first `max_len` characters of the prompt consisting only
of characters that are alphanumeric or `'-'` or `'_'` (hence of length at
most `max_len`), or, when that filtering yields the empty string, the
literal `"image"`. -/
theorem sanitize_prompt_spec (isalnum : Char → Bool) (prompt : String) (max_len : Nat) :
    sanitize_prompt isalnum prompt max_len ≠ "" ∧
    ((sanitize_prompt isalnum prompt max_len =
        String.mk ((prompt.data.take max_len).filter
          (fun c => isalnum c || c == '-' || c == '_')) ∧
      (sanitize_prompt isalnum prompt max_len).data.length ≤ max_len ∧
      ∀ c ∈ (sanitize_prompt isalnum prompt max_len).data,
        (isalnum c || c == '-' || c == '_') = true) ∨
     ((prompt.data.take max_len).filter
          (fun c => isalnum c || c == '-' || c == '_') = [] ∧
      sanitize_prompt isalnum prompt max_len = "image")) := by
  unfold sanitize_prompt
  by_cases h : String.mk ((prompt.data.take max_len).filter
      (fun c => isalnum c || c == '-' || c == '_')) = ""
  · rw [if_pos h]
    refine ⟨by decide, Or.inr ⟨?_, rfl⟩⟩
    have := congrArg String.data h
    simpa using this
  · rw [if_neg h]
    refine ⟨h, Or.inl ⟨rfl, ?_, ?_⟩⟩
    · calc ((prompt.data.take max_len).filter
            (fun c => isalnum c || c == '-' || c == '_')).length
          ≤ (prompt.data.take max_len).length := List.length_filter_le _ _
        _ ≤ max_len := by
            rw [List.length_take]; exact Nat.min_le_left _ _
    · intro c hc
      exact List.of_mem_filter (p := fun c => isalnum c || c == '-' || c == '_') hc

end Text2Video
